import Mathlib

/-!
# rdsiamwrap: the token-renewal gate of `Driver.Open`

A shallow embedding of `rdsiamwrap.go`.

* `time.Time` is an instant on one timeline, counted in nanoseconds from Go's zero
  `time.Time`; `time.Duration` is a signed count of nanoseconds.  `Time.After` is the
  strict comparison of the standard library and `Time.Add` is addition.
* The body of `Open` runs entirely under `d.lock`, so one call is one atomic transition of
  the renewal state (`lastDSN`, `renewAfter`).
* The collaborators are answered by the outside world: the reading of `time.Now()`, the
  answer of `Build()` on the connection-string builder and the answer of the wrapped
  `d.Driver.Open` are arguments of the call.  The calls made to them are recorded, in
  program order, in `OpenResult.events`.
-/

set_option linter.unusedVariables false

namespace Rdsiamwrap

/-! ## The standard-library types the source uses -/

/-- Instant of a `time.Time`, in nanoseconds since the zero `time.Time`. -/
abbrev Time := Int

/-- Signed nanosecond count of a `time.Duration`. -/
abbrev Duration := Int

/-- The zero value of `time.Time`, which an unset `renewAfter` field holds. -/
def zeroTime : Time := 0

def Nanosecond : Duration := 1
def Microsecond : Duration := 1000 * Nanosecond
def Millisecond : Duration := 1000 * Microsecond
def Second : Duration := 1000 * Millisecond
def Minute : Duration := 60 * Second

/-- Go `t.After(u)`: reports whether the instant `t` is after `u`. -/
def Time.After (t u : Time) : Bool := decide (u < t)

/-- Go `t.Add(d)`: the instant `t + d`. -/
def Time.Add (t : Time) (d : Duration) : Time := t + d

/-- Go `error` values: a plain error, or the wrapping error `fmt.Errorf` makes for `%w`. -/
inductive GoError where
  | errorString (s : String)
  | wrapError (msg : String) (err : GoError)
  deriving DecidableEq, Repr

/-- Go `err.Error()`. -/
def GoError.Error : GoError → String
  | .errorString s => s
  | .wrapError msg _ => msg

/-- Go `errors.Unwrap(err)`. -/
def GoError.Unwrap : GoError → Option GoError
  | .errorString _ => none
  | .wrapError _ err => some err

/-- Go `fmt.Errorf(label + "%w", err)` for a format that is a literal label followed by `%w`. -/
def Errorf_w (label : String) (err : GoError) : GoError :=
  .wrapError (label ++ err.Error) err

/-- Handle of an `*credentials.Credentials`; the connector never looks inside it. -/
structure Credentials where
  handle : Nat
  deriving DecidableEq, Repr

/-- Go `url.Values`. -/
abbrev Values := List (String × List String)

/-- Handle of a `driver.Conn`. -/
structure Conn where
  id : Nat
  deriving DecidableEq, Repr

/-- Format selector of `rdsutils.ConnectionStringBuilder`. -/
inductive ConnectionFormat where
  | NoConnectionFormat
  | TCPFormat
  deriving DecidableEq, Repr

/-- The fields of an `rdsutils.ConnectionStringBuilder`. -/
structure ConnectionStringBuilder where
  endpoint : String
  region : String
  dbUser : String
  dbName : String
  creds : Option Credentials
  connectFormat : ConnectionFormat
  params : Values
  deriving DecidableEq, Repr

/-- Go `rdsutils.NewConnectionStringBuilder(endpoint, region, dbUser, dbName, creds)`. -/
def NewConnectionStringBuilder (endpoint region dbUser dbName : String)
    (creds : Option Credentials) : ConnectionStringBuilder :=
  { endpoint := endpoint, region := region, dbUser := dbUser, dbName := dbName,
    creds := creds, connectFormat := .NoConnectionFormat, params := [] }

/-- Go `b.WithTCPFormat()`. -/
def ConnectionStringBuilder.WithTCPFormat (b : ConnectionStringBuilder) :
    ConnectionStringBuilder :=
  { b with connectFormat := .TCPFormat }

/-- Go `b.WithParams(params)`. -/
def ConnectionStringBuilder.WithParams (b : ConnectionStringBuilder) (params : Values) :
    ConnectionStringBuilder :=
  { b with params := params }

/-- Answer of `b.Build()`: the Go pair `(string, error)`, the error `none` for `nil`. -/
abbrev BuildOracle := ConnectionStringBuilder → String × Option GoError

/-- Answer of the wrapped `d.Driver.Open(dsn)`: the Go pair `(driver.Conn, error)`. -/
abbrev InnerOpen := String → Option Conn × Option GoError

/-! ## The source -/

/-- Source constant `DefaultTokenLifetime = time.Minute * 14`. -/
def DefaultTokenLifetime : Duration := Minute * 14

/-- Source `type Driver struct`.  The wrapped `Driver` field is the `InnerOpen` argument of
`Driver.Open`; `lock` is the atomicity of `Driver.Open`. -/
structure Driver where
  Addr : String
  Region : String
  User : String
  DBName : String
  Creds : Option Credentials
  Params : Values
  TokenLifetime : Duration
  lastDSN : String
  renewAfter : Time
  deriving DecidableEq, Repr

/-- Source `New()`: every field holds its zero value. -/
def New : Driver :=
  { Addr := "", Region := "", User := "", DBName := "", Creds := none, Params := [],
    TokenLifetime := 0, lastDSN := "", renewAfter := zeroTime }

/-- A call `Open` makes to a collaborator. -/
inductive Event where
  | build (b : ConnectionStringBuilder)
  | innerOpen (dsn : String)
  deriving DecidableEq, Repr

/-- What one `Open` call leaves behind: the returned pair, the driver afterwards and the
collaborator calls it made, in order. -/
structure OpenResult where
  conn : Option Conn
  err : Option GoError
  d : Driver
  events : List Event
  deriving DecidableEq, Repr

/-- Source `func (d *Driver) Open(name string) (driver.Conn, error)`.
`now` is the reading of `time.Now()`. -/
def Driver.Open (d : Driver) (name : String) (now : Time) (Build : BuildOracle)
    (inner : InnerOpen) : OpenResult :=
  if Time.After now d.renewAfter then
    let b := NewConnectionStringBuilder d.Addr d.Region d.User d.DBName d.Creds
    let req := (b.WithTCPFormat).WithParams d.Params
    match Build req with
    | (_, some err) =>
      { conn := none, err := some (Errorf_w "building connection string: " err), d := d,
        events := [.build req] }
    | (connectStr, none) =>
      let d1 : Driver := { d with lastDSN := connectStr }
      let lifetime : Duration :=
        if d1.TokenLifetime ≠ 0 then d1.TokenLifetime else DefaultTokenLifetime
      let d2 : Driver := { d1 with renewAfter := Time.Add now lifetime }
      let r := inner d2.lastDSN
      { conn := r.1, err := r.2, d := d2, events := [.build req, .innerOpen d2.lastDSN] }
  else
    let r := inner d.lastDSN
    { conn := r.1, err := r.2, d := d, events := [.innerOpen d.lastDSN] }

/-! ## Reading the record of collaborator calls -/

/-- The builder requests among the events, in order. -/
def builds : List Event → List ConnectionStringBuilder
  | [] => []
  | .build b :: es => b :: builds es
  | .innerOpen _ :: es => builds es

/-- The descriptors handed to the wrapped driver among the events, in order. -/
def innerOpens : List Event → List String
  | [] => []
  | .build _ :: es => innerOpens es
  | .innerOpen dsn :: es => dsn :: innerOpens es

/-- The request `Open` sends to the builder: the configured fields, TCP format. -/
def Driver.request (d : Driver) : ConnectionStringBuilder :=
  ((NewConnectionStringBuilder d.Addr d.Region d.User d.DBName d.Creds).WithTCPFormat).WithParams
    d.Params

/-- The lifetime `Open` adds to `now` on a successful build. -/
def Driver.effectiveLifetime (d : Driver) : Duration :=
  if d.TokenLifetime ≠ 0 then d.TokenLifetime else DefaultTokenLifetime

/-! ## Sample collaborators for the concrete instances -/

/-- A builder that always succeeds with the descriptor `s`. -/
def buildOk (s : String) : BuildOracle := fun _ => (s, none)

/-- A builder that always fails with the error `e`. -/
def buildFail (e : GoError) : BuildOracle := fun _ => ("", some e)

/-- A wrapped driver that always returns connection `n`. -/
def innerOk (n : Nat) : InnerOpen := fun _ => (some ⟨n⟩, none)

/-- A wrapped driver that always fails with the error `e`. -/
def innerFail (e : GoError) : InnerOpen := fun _ => (none, some e)

/-- A driver whose cached descriptor is `"dsn0"`, to be renewed after instant `100`. -/
def sampleDriver : Driver :=
  { New with Addr := "db.example:5432", Region := "us-east-1", User := "app", DBName := "main",
             lastDSN := "dsn0", renewAfter := 100 }

/-! ## The owner's configuration and sequences of calls -/

/-- The exported configuration fields of `Driver`, which the owner assigns after `New()`. -/
structure Config where
  Addr : String
  Region : String
  User : String
  DBName : String
  Creds : Option Credentials
  Params : Values
  TokenLifetime : Duration
  deriving DecidableEq, Repr

/-- The owner assigning the exported fields; `lastDSN` and `renewAfter` are unexported and
stay as they are. -/
def Driver.configure (d : Driver) (c : Config) : Driver :=
  { d with Addr := c.Addr, Region := c.Region, User := c.User, DBName := c.DBName,
           Creds := c.Creds, Params := c.Params, TokenLifetime := c.TokenLifetime }

/-- One `Open` call as the outside world sees it: its argument, the reading of `time.Now()`
and the answers of the two collaborators during the call. -/
structure Call where
  name : String
  now : Time
  Build : BuildOracle
  inner : InnerOpen

/-- A sequence of `Open` calls on one driver (the lock makes them happen one after the
other): the result of every call, in order. -/
def run (d : Driver) : List Call → List OpenResult
  | [] => []
  | c :: cs => d.Open c.name c.now c.Build c.inner :: run (d.Open c.name c.now c.Build c.inner).d cs

/-- The values `renewAfter` takes along a sequence of calls, the initial one first. -/
def watermarks (d : Driver) (cs : List Call) : List Time :=
  d.renewAfter :: (run d cs).map fun r => r.d.renewAfter

/-- Where the cached descriptor comes from: the reading of `time.Now()` in the call that
built it, the lifetime that call added, and the string the builder returned. -/
structure Provenance where
  builtAt : Time
  lifetime : Duration
  dsn : String
  deriving DecidableEq, Repr

/-- `Driver.Open` carrying, next to the driver, the provenance of `lastDSN`: it is replaced
where the source assigns `d.lastDSN = connectStr` and kept everywhere else. -/
def Driver.OpenG (d : Driver) (g : Option Provenance) (name : String) (now : Time)
    (Build : BuildOracle) (inner : InnerOpen) : OpenResult × Option Provenance :=
  if Time.After now d.renewAfter then
    let b := NewConnectionStringBuilder d.Addr d.Region d.User d.DBName d.Creds
    let req := (b.WithTCPFormat).WithParams d.Params
    match Build req with
    | (_, some err) =>
      ({ conn := none, err := some (Errorf_w "building connection string: " err), d := d,
         events := [.build req] }, g)
    | (connectStr, none) =>
      let d1 : Driver := { d with lastDSN := connectStr }
      let lifetime : Duration :=
        if d1.TokenLifetime ≠ 0 then d1.TokenLifetime else DefaultTokenLifetime
      let d2 : Driver := { d1 with renewAfter := Time.Add now lifetime }
      let r := inner d2.lastDSN
      ({ conn := r.1, err := r.2, d := d2, events := [.build req, .innerOpen d2.lastDSN] },
       some { builtAt := now, lifetime := lifetime, dsn := connectStr })
  else
    let r := inner d.lastDSN
    ({ conn := r.1, err := r.2, d := d, events := [.innerOpen d.lastDSN] }, g)

/-- A descriptor handed to the wrapped driver: the reading of `time.Now()` in that call, the
descriptor, and its provenance (`none` when no observed call built it). -/
structure Presentation where
  time : Time
  dsn : String
  source : Option Provenance
  deriving DecidableEq, Repr

/-- Every descriptor handed to the wrapped driver along a sequence of calls, in order. -/
def presentations (d : Driver) (g : Option Provenance) : List Call → List Presentation
  | [] => []
  | c :: cs =>
    (innerOpens (d.OpenG g c.name c.now c.Build c.inner).1.events).map
        (fun dsn => { time := c.now, dsn := dsn,
                      source := (d.OpenG g c.name c.now c.Build c.inner).2 }) ++
      presentations (d.OpenG g c.name c.now c.Build c.inner).1.d
        (d.OpenG g c.name c.now c.Build c.inner).2 cs

/-- The provenance describes the cached descriptor: it is the string built at `builtAt`, and
the watermark is `builtAt + lifetime`, the lifetime being the driver's effective one. -/
def Tracks (d : Driver) (g : Option Provenance) : Prop :=
  ∀ pv, g = some pv →
    d.renewAfter = pv.builtAt + pv.lifetime ∧ d.lastDSN = pv.dsn ∧
      pv.lifetime = d.effectiveLifetime

/-- What holds of every presented descriptor: it is the string of its provenance, built
under the lifetime `L`, and its age is at most `max 0 L`. -/
def Presentation.Sound (L : Duration) (p : Presentation) : Prop :=
  ∀ pv, p.source = some pv →
    p.dsn = pv.dsn ∧ pv.lifetime = L ∧ p.time - pv.builtAt ≤ max 0 pv.lifetime

/-- Every collaborator call made along a sequence of `Open` calls, in order. -/
def allEvents : List OpenResult → List Event
  | [] => []
  | r :: rs => r.events ++ allEvents rs

/-- A sample configuration with no token lifetime set. -/
def sampleConfig : Config :=
  { Addr := "db.example:5432", Region := "us-east-1", User := "app", DBName := "main",
    Creds := some ⟨7⟩, Params := [("sslmode", ["require"])], TokenLifetime := 0 }

/-- The sample configuration with a token lifetime of minus 1000 ns. -/
def negativeConfig : Config :=
  { sampleConfig with TokenLifetime := -1000 }

/-- The sample configuration with a token lifetime of 1000 ns. -/
def shortConfig : Config :=
  { sampleConfig with TokenLifetime := 1000 }

/-- The sample configuration with a token lifetime of minus 3000 ns. -/
def reassignedConfig : Config :=
  { sampleConfig with TokenLifetime := -3000 }

/-- A driver configured with a negative token lifetime. -/
def negativeLifetimeDriver : Driver :=
  { sampleDriver with TokenLifetime := -1000 }

/-! ## Basic facts about one `Open` call -/

theorem Time.After_iff (t u : Time) : Time.After t u = true ↔ u < t := by
  simp [Time.After]

theorem Open_fresh (d : Driver) (name : String) (now : Time) (Build : BuildOracle)
    (inner : InnerOpen) (h : Time.After now d.renewAfter = false) :
    d.Open name now Build inner =
      { conn := (inner d.lastDSN).1, err := (inner d.lastDSN).2, d := d,
        events := [.innerOpen d.lastDSN] } := by
  simp [Driver.Open, h]

theorem Open_stale_fail (d : Driver) (name : String) (now : Time) (Build : BuildOracle)
    (inner : InnerOpen) (h : Time.After now d.renewAfter = true) (s : String) (e : GoError)
    (hb : Build d.request = (s, some e)) :
    d.Open name now Build inner =
      { conn := none, err := some (Errorf_w "building connection string: " e), d := d,
        events := [.build d.request] } := by
  simp only [Driver.request] at hb
  simp [Driver.Open, h, hb, Driver.request]

theorem Open_stale_ok (d : Driver) (name : String) (now : Time) (Build : BuildOracle)
    (inner : InnerOpen) (h : Time.After now d.renewAfter = true) (s : String)
    (hb : Build d.request = (s, none)) :
    d.Open name now Build inner =
      { conn := (inner s).1, err := (inner s).2,
        d := { d with lastDSN := s, renewAfter := now + d.effectiveLifetime },
        events := [.build d.request, .innerOpen s] } := by
  simp only [Driver.request] at hb
  simp [Driver.Open, h, hb, Driver.request, Driver.effectiveLifetime, Time.Add]

theorem effectiveLifetime_default (d : Driver) (h : d.TokenLifetime = 0) :
    d.effectiveLifetime = DefaultTokenLifetime := by
  simp [Driver.effectiveLifetime, h]

theorem effectiveLifetime_configured (d : Driver) (h : d.TokenLifetime ≠ 0) :
    d.effectiveLifetime = d.TokenLifetime := by
  simp [Driver.effectiveLifetime, h]

theorem After_false_iff (t u : Time) : Time.After t u = false ↔ t ≤ u := by
  simp [Time.After]

/-- Every build answer is a failure or a success. -/
theorem build_cases (Build : BuildOracle) (b : ConnectionStringBuilder) :
    (∃ s e, Build b = (s, some e)) ∨ (∃ s, Build b = (s, none)) := by
  rcases hb : Build b with ⟨s, _ | e⟩
  · exact Or.inr ⟨s, rfl⟩
  · exact Or.inl ⟨s, e, rfl⟩

/-- The builder is called with the configured request when `now` is strictly after
`renewAfter`, and not at all otherwise. -/
theorem builds_Open (d : Driver) (name : String) (now : Time) (Build : BuildOracle)
    (inner : InnerOpen) :
    builds (d.Open name now Build inner).events =
      if d.renewAfter < now then [d.request] else [] := by
  by_cases h : d.renewAfter < now
  · have hA : Time.After now d.renewAfter = true := (Time.After_iff _ _).2 h
    rcases build_cases Build d.request with ⟨s, e, hb⟩ | ⟨s, hb⟩
    · rw [Open_stale_fail d name now Build inner hA s e hb]; simp [builds, h]
    · rw [Open_stale_ok d name now Build inner hA s hb]; simp [builds, h]
  · have hA : Time.After now d.renewAfter = false := (After_false_iff _ _).2 (not_lt.1 h)
    rw [Open_fresh d name now Build inner hA]; simp [builds, h]

/-! ## C1: when the builder is invoked -/

/-- C1, as stated, fails at the boundary: with `renewAfter = 100` an `Open` at `now = 100`
(at, not after, the watermark) does not call the builder; and after a successful build at
`t = 1000` with the default lifetime, an `Open` at exactly `t + L` reuses the cached
descriptor. -/
theorem Open_at_watermark_reuses :
    (sampleDriver.renewAfter ≤ 100 ∧
      builds (sampleDriver.Open "db" 100 (buildOk "dsn1") (innerOk 1)).events = []) ∧
    (builds (New.Open "db" 1000 (buildOk "dsn1") (innerOk 1)).events = [New.request] ∧
      builds ((New.Open "db" 1000 (buildOk "dsn1") (innerOk 1)).d.Open "db"
        (1000 + DefaultTokenLifetime) (buildOk "dsn2") (innerOk 2)).events = []) := by
  decide

/-- C1 (amended): `Open` invokes the token builder if and only if `now` is strictly after
`renewAfter`, and reuses the cached descriptor while `now` is at or before it; after a
successful build at `now` with effective lifetime `L`, a later `Open` at `t2` invokes the
builder again exactly when `t2 > now + L`, and at `t2 = now + L` it does not. -/
theorem Open_builds_iff_strictly_after (d : Driver) (name : String) (now : Time)
    (Build : BuildOracle) (inner : InnerOpen) :
    (builds (d.Open name now Build inner).events = [d.request] ↔ d.renewAfter < now) ∧
    (builds (d.Open name now Build inner).events = [] ↔ now ≤ d.renewAfter) ∧
    (∀ (s name2 : String) (t2 : Time) (Build2 : BuildOracle) (inner2 : InnerOpen),
      d.renewAfter < now → Build d.request = (s, none) →
      (builds ((d.Open name now Build inner).d.Open name2 t2 Build2 inner2).events ≠ [] ↔
          now + d.effectiveLifetime < t2) ∧
      (t2 = now + d.effectiveLifetime →
        builds ((d.Open name now Build inner).d.Open name2 t2 Build2 inner2).events = [])) := by
  refine ⟨?_, ?_, ?_⟩
  · rw [builds_Open]; by_cases h : d.renewAfter < now <;> simp [h]
  · rw [builds_Open]; by_cases h : d.renewAfter < now <;> simp [h, not_le.2, not_lt.1]
  · intro s name2 t2 Build2 inner2 h hb
    have hA : Time.After now d.renewAfter = true := (Time.After_iff _ _).2 h
    rw [Open_stale_ok d name now Build inner hA s hb, builds_Open]
    constructor
    · by_cases h2 : now + d.effectiveLifetime < t2 <;> simp [h2]
    · intro h2; simp [h2]

/-- Instance of C1 (amended): from `renewAfter = 100`, a build at `now = 101` with the default
lifetime, then an `Open` one nanosecond past the new watermark builds again. -/
theorem Open_builds_iff_strictly_after_witness :
    builds ((sampleDriver.Open "db" 101 (buildOk "dsn1") (innerOk 1)).d.Open "db"
      (101 + DefaultTokenLifetime + 1) (buildOk "dsn2") (innerOk 2)).events ≠ [] :=
  ((Open_builds_iff_strictly_after sampleDriver "db" 101 (buildOk "dsn1") (innerOk 1)).2.2
    "dsn1" "db" (101 + DefaultTokenLifetime + 1) (buildOk "dsn2") (innerOk 2)
    (by decide) rfl).1.2 (by decide)

/-! ## C2: a failing builder -/

/-- C2: when renewal is triggered and the builder returns an error `e`, `Open` leaves the
driver (so `renewAfter` and the cached descriptor) exactly as it was, returns a nil
connection with an error whose text starts with the label "building connection string: " and
which unwraps to `e`, and calls the builder once and the wrapped driver not at all. -/
theorem Open_builder_failure (d : Driver) (name : String) (now : Time) (Build : BuildOracle)
    (inner : InnerOpen) (s : String) (e : GoError)
    (hstale : Time.After now d.renewAfter = true) (hb : Build d.request = (s, some e)) :
    (d.Open name now Build inner).d = d ∧
    (d.Open name now Build inner).d.renewAfter = d.renewAfter ∧
    (d.Open name now Build inner).d.lastDSN = d.lastDSN ∧
    (d.Open name now Build inner).conn = none ∧
    (d.Open name now Build inner).err =
      some (GoError.wrapError ("building connection string: " ++ e.Error) e) ∧
    ((d.Open name now Build inner).err.bind GoError.Unwrap = some e) ∧
    innerOpens (d.Open name now Build inner).events = [] ∧
    (d.Open name now Build inner).events = [Event.build d.request] := by
  rw [Open_stale_fail d name now Build inner hstale s e hb]
  simp [Errorf_w, GoError.Unwrap, innerOpens]

/-- Instance of C2: a stale driver whose builder fails with "no credentials". -/
theorem Open_builder_failure_witness :
    Time.After 101 sampleDriver.renewAfter = true ∧
    (sampleDriver.Open "db" 101 (buildFail (.errorString "no credentials")) (innerOk 1)).d
      = sampleDriver ∧
    (sampleDriver.Open "db" 101 (buildFail (.errorString "no credentials")) (innerOk 1)).err
      = some (GoError.wrapError "building connection string: no credentials"
          (.errorString "no credentials")) ∧
    innerOpens
      (sampleDriver.Open "db" 101 (buildFail (.errorString "no credentials")) (innerOk 1)).events
      = [] :=
  have h := Open_builder_failure sampleDriver "db" 101
    (buildFail (.errorString "no credentials")) (innerOk 1) "" (.errorString "no credentials")
    (by decide) rfl
  ⟨by decide, h.1, by decide, h.2.2.2.2.2.2.1⟩

/-! ## C3: a successful build -/

/-- C3: when renewal is triggered at `now` and the builder succeeds with `s`, the cached
descriptor becomes `s` and `renewAfter` becomes `now + L`, with `L` the configured
`TokenLifetime` when it is non-zero and `DefaultTokenLifetime`, exactly 14 minutes
(840000000000 ns), when it is zero; with no lifetime configured `renewAfter - now` is 14
minutes exactly. -/
theorem Open_build_success (d : Driver) (name : String) (now : Time) (Build : BuildOracle)
    (inner : InnerOpen) (s : String)
    (hstale : Time.After now d.renewAfter = true) (hb : Build d.request = (s, none)) :
    (d.Open name now Build inner).d.lastDSN = s ∧
    (d.TokenLifetime ≠ 0 →
      (d.Open name now Build inner).d.renewAfter = now + d.TokenLifetime) ∧
    (d.TokenLifetime = 0 →
      (d.Open name now Build inner).d.renewAfter = now + DefaultTokenLifetime) ∧
    DefaultTokenLifetime = 14 * Minute ∧ DefaultTokenLifetime = 14 * 60 * 1000000000 ∧
    (d.TokenLifetime = 0 →
      (d.Open name now Build inner).d.renewAfter - now = 14 * 60 * 1000000000) := by
  rw [Open_stale_ok d name now Build inner hstale s hb]
  have hD : DefaultTokenLifetime = 14 * 60 * 1000000000 := by decide
  refine ⟨rfl, ?_, ?_, by decide, hD, ?_⟩
  · intro h; simp [effectiveLifetime_configured d h]
  · intro h; simp [effectiveLifetime_default d h]
  · intro h; simp [effectiveLifetime_default d h, hD]

/-- Instance of C3: the sample driver has no lifetime configured; a build at `now = 101`
sets `renewAfter` to `101` plus 14 minutes. -/
theorem Open_build_success_witness :
    Time.After 101 sampleDriver.renewAfter = true ∧
    (sampleDriver.Open "db" 101 (buildOk "dsn1") (innerOk 1)).d.lastDSN = "dsn1" ∧
    (sampleDriver.Open "db" 101 (buildOk "dsn1") (innerOk 1)).d.renewAfter - 101
      = 14 * 60 * 1000000000 :=
  have h := Open_build_success sampleDriver "db" 101 (buildOk "dsn1") (innerOk 1) "dsn1"
    (by decide) rfl
  ⟨by decide, h.1, h.2.2.2.2.2 rfl⟩

/-! ## C4: reuse before the watermark -/

/-- C4: if an `Open` at `t1` builds successfully and a second `Open` happens at a `t2`
strictly before the `renewAfter` the first call set, the builder is invoked exactly once
across both calls, the second call leaves the driver (cached descriptor and `renewAfter`)
unchanged, and both calls hand the same descriptor to the wrapped driver. -/
theorem Open_reuse_within_lifetime (d : Driver) (name1 name2 : String) (t1 t2 : Time)
    (Build1 Build2 : BuildOracle) (inner1 inner2 : InnerOpen) (s : String)
    (hstale : Time.After t1 d.renewAfter = true) (hb : Build1 d.request = (s, none))
    (ht2 : t2 < (d.Open name1 t1 Build1 inner1).d.renewAfter) :
    (builds ((d.Open name1 t1 Build1 inner1).events ++
        ((d.Open name1 t1 Build1 inner1).d.Open name2 t2 Build2 inner2).events)).length = 1 ∧
    builds ((d.Open name1 t1 Build1 inner1).d.Open name2 t2 Build2 inner2).events = [] ∧
    ((d.Open name1 t1 Build1 inner1).d.Open name2 t2 Build2 inner2).d
      = (d.Open name1 t1 Build1 inner1).d ∧
    innerOpens (d.Open name1 t1 Build1 inner1).events = [s] ∧
    innerOpens ((d.Open name1 t1 Build1 inner1).d.Open name2 t2 Build2 inner2).events = [s] := by
  have hA : Time.After t2 (d.Open name1 t1 Build1 inner1).d.renewAfter = false :=
    (After_false_iff _ _).2 (le_of_lt ht2)
  rw [Open_fresh _ name2 t2 Build2 inner2 hA]
  rw [Open_stale_ok d name1 t1 Build1 inner1 hstale s hb]
  simp [builds, innerOpens]

/-- Instance of C4: a build at `101`, then an `Open` at `102`. -/
theorem Open_reuse_within_lifetime_witness :
    Time.After 101 sampleDriver.renewAfter = true ∧
    102 < (sampleDriver.Open "db" 101 (buildOk "dsn1") (innerOk 1)).d.renewAfter ∧
    innerOpens ((sampleDriver.Open "db" 101 (buildOk "dsn1") (innerOk 1)).d.Open "db" 102
      (buildOk "dsn2") (innerOk 2)).events = ["dsn1"] :=
  ⟨by decide, by decide,
    (Open_reuse_within_lifetime sampleDriver "db" "db" 101 102 (buildOk "dsn1") (buildOk "dsn2")
      (innerOk 1) (innerOk 2) "dsn1" (by decide) rfl (by decide)).2.2.2.2⟩

/-! ## C5: a failing wrapped driver -/

/-- C5: when the builder succeeds with `s` but the wrapped driver returns an error `e`
(with whatever connection value `c`), `Open` returns exactly that pair, the new descriptor
and the new `renewAfter = now + L` stay in the driver, and a later `Open` at any `t2` up to
`now + L` does not invoke the builder and offers `s` again. -/
theorem Open_inner_failure_keeps_renewal (d : Driver) (name name2 : String) (now t2 : Time)
    (Build Build2 : BuildOracle) (inner inner2 : InnerOpen) (s : String) (c : Option Conn)
    (e : GoError)
    (hstale : Time.After now d.renewAfter = true) (hb : Build d.request = (s, none))
    (hi : inner s = (c, some e)) (ht2 : t2 ≤ now + d.effectiveLifetime) :
    ((d.Open name now Build inner).conn, (d.Open name now Build inner).err) = inner s ∧
    (d.Open name now Build inner).err = some e ∧
    (d.Open name now Build inner).d.lastDSN = s ∧
    (d.Open name now Build inner).d.renewAfter = now + d.effectiveLifetime ∧
    builds ((d.Open name now Build inner).d.Open name2 t2 Build2 inner2).events = [] ∧
    innerOpens ((d.Open name now Build inner).d.Open name2 t2 Build2 inner2).events = [s] := by
  have hA : Time.After t2 (d.Open name now Build inner).d.renewAfter = false := by
    rw [Open_stale_ok d name now Build inner hstale s hb]
    exact (After_false_iff _ _).2 ht2
  rw [Open_fresh _ name2 t2 Build2 inner2 hA]
  rw [Open_stale_ok d name now Build inner hstale s hb]
  simp [builds, innerOpens, hi]

/-- Instance of C5: the build at `101` succeeds, the wrapped driver refuses the connection,
and the `Open` at `102` reuses the descriptor. -/
theorem Open_inner_failure_keeps_renewal_witness :
    Time.After 101 sampleDriver.renewAfter = true ∧
    (102 : Time) ≤ 101 + sampleDriver.effectiveLifetime ∧
    (sampleDriver.Open "db" 101 (buildOk "dsn1")
      (innerFail (.errorString "connection refused"))).err
      = some (.errorString "connection refused") ∧
    builds ((sampleDriver.Open "db" 101 (buildOk "dsn1")
      (innerFail (.errorString "connection refused"))).d.Open "db" 102 (buildOk "dsn2")
      (innerOk 2)).events = [] :=
  have h := Open_inner_failure_keeps_renewal sampleDriver "db" "db" 101 102 (buildOk "dsn1")
    (buildOk "dsn2") (innerFail (.errorString "connection refused")) (innerOk 2) "dsn1" none
    (.errorString "connection refused") (by decide) rfl rfl (by decide)
  ⟨by decide, by decide, h.2.1, h.2.2.2.2.1⟩

/-! ## C6: the first call on a new driver -/

theorem configure_New_renewAfter (c : Config) : (New.configure c).renewAfter = zeroTime := rfl

theorem configure_New_lastDSN (c : Config) : (New.configure c).lastDSN = "" := rfl

/-- C6: on a driver produced by `New` and then configured (`renewAfter` is the zero time,
the cached descriptor is empty), the first `Open`, at any reading of the clock after Go's
zero time, invokes the builder exactly once, with the configured request, and does so
before any call to the wrapped driver: the builder call is the first event and an
inner open, if any, follows it. -/
theorem first_Open_builds_once (c : Config) (name : String) (now : Time) (Build : BuildOracle)
    (inner : InnerOpen) (hnow : zeroTime < now) :
    builds ((New.configure c).Open name now Build inner).events = [(New.configure c).request] ∧
    (((New.configure c).Open name now Build inner).events
        = [Event.build (New.configure c).request] ∨
      ∃ s, ((New.configure c).Open name now Build inner).events
        = [Event.build (New.configure c).request, Event.innerOpen s]) := by
  have hA : Time.After now (New.configure c).renewAfter = true :=
    (Time.After_iff _ _).2 hnow
  rcases build_cases Build (New.configure c).request with ⟨s, e, hb⟩ | ⟨s, hb⟩
  · rw [Open_stale_fail _ name now Build inner hA s e hb]; simp [builds]
  · rw [Open_stale_ok _ name now Build inner hA s hb]; simp [builds]

/-- Instance of C6: the first `Open` of a configured new driver, one nanosecond after the
zero time. -/
theorem first_Open_builds_once_witness :
    zeroTime < 1 ∧
    builds ((New.configure sampleConfig).Open "db" 1 (buildOk "dsn1") (innerOk 1)).events
      = [(New.configure sampleConfig).request] :=
  ⟨by decide,
    (first_Open_builds_once sampleConfig "db" 1 (buildOk "dsn1") (innerOk 1) (by decide)).1⟩

/-! ## C9: the `name` argument -/

/-- C9: the `name` argument of `Open` influences nothing: for any two names the whole
outcome (returned connection and error, resulting driver, and the calls made to the builder
and to the wrapped driver with their arguments) is the same, and every builder call carries
the configured `Addr`, `Region`, `User`, `DBName`, `Creds` and `Params` in TCP format. -/
theorem Open_name_irrelevant (d : Driver) (n1 n2 : String) (now : Time) (Build : BuildOracle)
    (inner : InnerOpen) :
    d.Open n1 now Build inner = d.Open n2 now Build inner ∧
    ∀ b ∈ builds (d.Open n1 now Build inner).events,
      b = { endpoint := d.Addr, region := d.Region, dbUser := d.User, dbName := d.DBName,
            creds := d.Creds, connectFormat := ConnectionFormat.TCPFormat,
            params := d.Params } := by
  refine ⟨rfl, ?_⟩
  intro b hb
  rw [builds_Open] at hb
  by_cases h : d.renewAfter < now
  · simp [h] at hb
    rw [hb]; rfl
  · simp [h] at hb

/-! ## C8: the watermark along a sequence of calls -/

/-- `Open` never touches the configuration fields. -/
theorem Open_config (d : Driver) (name : String) (now : Time) (Build : BuildOracle)
    (inner : InnerOpen) :
    (d.Open name now Build inner).d.TokenLifetime = d.TokenLifetime ∧
    (d.Open name now Build inner).d.effectiveLifetime = d.effectiveLifetime ∧
    (d.Open name now Build inner).d.request = d.request := by
  by_cases h : d.renewAfter < now
  · have hA : Time.After now d.renewAfter = true := (Time.After_iff _ _).2 h
    rcases build_cases Build d.request with ⟨s, e, hb⟩ | ⟨s, hb⟩
    · rw [Open_stale_fail d name now Build inner hA s e hb]; exact ⟨rfl, rfl, rfl⟩
    · rw [Open_stale_ok d name now Build inner hA s hb]; exact ⟨rfl, rfl, rfl⟩
  · have hA : Time.After now d.renewAfter = false := (After_false_iff _ _).2 (not_lt.1 h)
    rw [Open_fresh d name now Build inner hA]; exact ⟨rfl, rfl, rfl⟩

theorem DefaultTokenLifetime_pos : 0 < DefaultTokenLifetime := by decide

theorem effectiveLifetime_nonneg (d : Driver) (h : 0 ≤ d.TokenLifetime) :
    0 ≤ d.effectiveLifetime := by
  unfold Driver.effectiveLifetime
  split
  · exact h
  · exact le_of_lt DefaultTokenLifetime_pos

theorem effectiveLifetime_ge_neg_one (d : Driver) (h : -1 ≤ d.TokenLifetime) :
    -1 ≤ d.effectiveLifetime := by
  unfold Driver.effectiveLifetime
  split
  · exact h
  · exact le_trans (by decide) (le_of_lt DefaultTokenLifetime_pos)

/-- One call either leaves the watermark alone or, being a successful rebuild at a reading
after it, sets it to `now + L`. -/
theorem Open_renewAfter_cases (d : Driver) (name : String) (now : Time) (Build : BuildOracle)
    (inner : InnerOpen) :
    (d.Open name now Build inner).d = d ∨
    (d.renewAfter < now ∧
      (d.Open name now Build inner).d.renewAfter = now + d.effectiveLifetime) := by
  by_cases h : d.renewAfter < now
  · have hA : Time.After now d.renewAfter = true := (Time.After_iff _ _).2 h
    rcases build_cases Build d.request with ⟨s, e, hb⟩ | ⟨s, hb⟩
    · rw [Open_stale_fail d name now Build inner hA s e hb]; exact Or.inl rfl
    · rw [Open_stale_ok d name now Build inner hA s hb]; exact Or.inr ⟨h, rfl⟩
  · have hA : Time.After now d.renewAfter = false := (After_false_iff _ _).2 (not_lt.1 h)
    rw [Open_fresh d name now Build inner hA]; exact Or.inl rfl

/-- One call, lifetime at least `-1` ns: the watermark does not move backwards. -/
theorem Open_renewAfter_le (d : Driver) (name : String) (now : Time) (Build : BuildOracle)
    (inner : InnerOpen) (hL : -1 ≤ d.TokenLifetime) :
    d.renewAfter ≤ (d.Open name now Build inner).d.renewAfter := by
  rcases Open_renewAfter_cases d name now Build inner with h | ⟨h, h2⟩
  · rw [h]
  · rw [h2]
    have h3 : d.renewAfter + 1 ≤ now := Int.add_one_le_iff.2 h
    have h4 := effectiveLifetime_ge_neg_one d hL
    linarith

theorem watermarks_chain (cs : List Call) :
    ∀ d : Driver, -1 ≤ d.TokenLifetime →
      List.Chain (fun a b : Time => a ≤ b) d.renewAfter
        ((run d cs).map fun r => r.d.renewAfter) := by
  induction cs with
  | nil => intro d _; simp [run]
  | cons c cs ih =>
    intro d hL
    simp only [run, List.map_cons, List.chain_cons]
    refine ⟨Open_renewAfter_le d c.name c.now c.Build c.inner hL, ih _ ?_⟩
    rw [(Open_config d c.name c.now c.Build c.inner).1]; exact hL

/-- Configuration untouched and readings that do not decrease: the watermark does not move
backwards, whatever the lifetime, once the starting watermark is replaced by no smaller
value. -/
theorem watermarks_chain_of_sorted (cs : List Call) :
    ∀ d : Driver, List.Sorted (fun a b : Time => a ≤ b) (cs.map fun c => c.now) →
      (∀ c ∈ cs, d.renewAfter < c.now → d.renewAfter ≤ c.now + d.effectiveLifetime) →
      List.Chain (fun a b : Time => a ≤ b) d.renewAfter
        ((run d cs).map fun r => r.d.renewAfter) := by
  induction cs with
  | nil => intro d _ _; simp [run]
  | cons c cs ih =>
    intro d hs h0
    simp only [List.map_cons, List.sorted_cons, List.mem_map, forall_exists_index,
      and_imp, forall_apply_eq_imp_iff₂] at hs
    obtain ⟨hle, hs2⟩ := hs
    simp only [run, List.map_cons, List.chain_cons]
    have hcfg := (Open_config d c.name c.now c.Build c.inner).2.1
    rcases Open_renewAfter_cases d c.name c.now c.Build c.inner with h | ⟨h, h2⟩
    · rw [h]
      exact ⟨le_refl _, ih d hs2 fun c2 hc2 => h0 c2 (List.mem_cons_of_mem _ hc2)⟩
    · refine ⟨?_, ih _ hs2 ?_⟩
      · rw [h2]; exact h0 c (List.mem_cons_self _ _) h
      · intro c2 hc2 _
        rw [h2, hcfg]
        exact add_le_add_right (hle c2 hc2) _

/-- C8, as stated ("any sequence of Open calls", "every configured token lifetime"), fails
for a lifetime below `-1` ns, in two ways.  (1) `TokenLifetime` reassigned between calls, the
clock moving forward: a new driver configured with 1000 ns rebuilds at reading `5000`
(`renewAfter = 6000`); the owner then sets `TokenLifetime = -3000`, and the successful
rebuild at reading `7000` replaces `6000` by `4000`.  (2) Configuration untouched
(`TokenLifetime = -1000`), the clock reading backwards: successful rebuilds at readings `5000`
and then `4500` give the watermarks `0, 4000, 3500`. -/
theorem rebuild_moves_watermark_back :
    (((New.configure shortConfig).Open "db" 5000 (buildOk "dsn1") (innerOk 1)).d.renewAfter
        = 6000 ∧
      ((((New.configure shortConfig).Open "db" 5000 (buildOk "dsn1") (innerOk 1)).d.configure
          reassignedConfig).Open "db" 7000 (buildOk "dsn2") (innerOk 2)).events
        = [Event.build (New.configure reassignedConfig).request, Event.innerOpen "dsn2"] ∧
      ((((New.configure shortConfig).Open "db" 5000 (buildOk "dsn1") (innerOk 1)).d.configure
          reassignedConfig).Open "db" 7000 (buildOk "dsn2") (innerOk 2)).d.renewAfter
        = 4000) ∧
    (watermarks (New.configure negativeConfig)
        [⟨"db", 5000, buildOk "dsn1", innerOk 1⟩, ⟨"db", 4500, buildOk "dsn2", innerOk 2⟩]
        = [0, 4000, 3500] ∧
      builds (allEvents (run (New.configure negativeConfig)
        [⟨"db", 5000, buildOk "dsn1", innerOk 1⟩, ⟨"db", 4500, buildOk "dsn2", innerOk 2⟩]))
        = [(New.configure negativeConfig).request, (New.configure negativeConfig).request] ∧
      ¬ List.Sorted (fun a b : Time => a ≤ b)
        (watermarks (New.configure negativeConfig)
          [⟨"db", 5000, buildOk "dsn1", innerOk 1⟩,
           ⟨"db", 4500, buildOk "dsn2", innerOk 2⟩])) := by
  decide

/-- C8 (amended): across any sequence of `Open` calls on one connector, `renewAfter` is
non-decreasing over successive successful rebuilds (the successive values of `renewAfter`
are sorted, so every rebuild sets a value at least as large as the one it replaces)
(1) for every configured token lifetime, negative ones included, when the configuration is
left as it is between the calls, the clock readings of successive calls do not decrease, and
the starting watermark is replaced, if at all, at a reading `now` with
`renewAfter ≤ now + L` (for a new connector: at a reading at least `-L` after the zero
time); and (2) whatever the clock readings and the starting state, for every token lifetime
of at least `-1` ns (zero selecting the 14-minute default).  (3) One call never lowers
`renewAfter` when the lifetime is at least `-1` ns, and (4) when it is at least `0` every
successful rebuild (renewal triggered, builder answering without error, whatever the wrapped
driver then answers) sets a strictly larger `renewAfter`. -/
theorem renewAfter_monotone (d : Driver) (cs : List Call) (name : String) (now : Time)
    (Build : BuildOracle) (inner : InnerOpen) (s : String) :
    (List.Sorted (fun a b : Time => a ≤ b) (cs.map fun c => c.now) →
      (∀ c ∈ cs, d.renewAfter < c.now → d.renewAfter ≤ c.now + d.effectiveLifetime) →
      List.Sorted (fun a b : Time => a ≤ b) (watermarks d cs)) ∧
    (-1 ≤ d.TokenLifetime → List.Sorted (fun a b : Time => a ≤ b) (watermarks d cs)) ∧
    (-1 ≤ d.TokenLifetime → d.renewAfter ≤ (d.Open name now Build inner).d.renewAfter) ∧
    (0 ≤ d.TokenLifetime → Time.After now d.renewAfter = true → Build d.request = (s, none) →
      d.renewAfter < (d.Open name now Build inner).d.renewAfter) := by
  refine ⟨?_, ?_, ?_, ?_⟩
  · intro hs h0
    exact List.chain_iff_pairwise.1 (watermarks_chain_of_sorted cs d hs h0)
  · intro hL
    exact List.chain_iff_pairwise.1 (watermarks_chain cs d hL)
  · intro hL
    exact Open_renewAfter_le d name now Build inner hL
  · intro hL hA hb
    rw [Open_stale_ok d name now Build inner hA s hb]
    exact lt_of_lt_of_le ((Time.After_iff _ _).1 hA)
      (le_add_of_nonneg_right (effectiveLifetime_nonneg d hL))

/-- Instance of C8 (amended): a new driver configured with `TokenLifetime = -1000`, called
at the readings `5000`, `5000` and `7000`; every call rebuilds and the watermarks
`0, 4000, 4000, 6000` are sorted.  And a successful rebuild of the sample driver (default
lifetime) whose inner open fails still raises the watermark strictly. -/
theorem renewAfter_monotone_witness :
    List.Sorted (fun a b : Time => a ≤ b)
      (watermarks (New.configure negativeConfig)
        [⟨"db", 5000, buildOk "dsn1", innerOk 1⟩, ⟨"db", 5000, buildOk "dsn2", innerOk 2⟩,
         ⟨"db", 7000, buildOk "dsn3", innerOk 3⟩]) ∧
    watermarks (New.configure negativeConfig)
        [⟨"db", 5000, buildOk "dsn1", innerOk 1⟩, ⟨"db", 5000, buildOk "dsn2", innerOk 2⟩,
         ⟨"db", 7000, buildOk "dsn3", innerOk 3⟩] = [0, 4000, 4000, 6000] ∧
    (sampleDriver.Open "db" 101 (buildOk "dsn1")
        (innerFail (.errorString "connection refused"))).err
      = some (.errorString "connection refused") ∧
    sampleDriver.renewAfter
      < (sampleDriver.Open "db" 101 (buildOk "dsn1")
          (innerFail (.errorString "connection refused"))).d.renewAfter :=
  ⟨(renewAfter_monotone (New.configure negativeConfig)
      [⟨"db", 5000, buildOk "dsn1", innerOk 1⟩, ⟨"db", 5000, buildOk "dsn2", innerOk 2⟩,
       ⟨"db", 7000, buildOk "dsn3", innerOk 3⟩]
      "db" 5000 (buildOk "dsn1") (innerOk 1) "dsn1").1 (by decide) (by decide),
    by decide, by decide,
    (renewAfter_monotone sampleDriver [] "db" 101 (buildOk "dsn1")
      (innerFail (.errorString "connection refused")) "dsn1").2.2.2
      (by decide) (by decide) rfl⟩

/-- Why part (1) of the amended C8 speaks of the starting watermark: in the model a first
rebuild at a reading closer than `-L` to the zero time (here `101` with `L = -1000`)
replaces the zero watermark by a smaller value.  No reading of a real clock is that close
to the zero time. -/
theorem first_rebuild_near_zero_time :
    watermarks (New.configure negativeConfig) [⟨"db", 101, buildOk "dsn1", innerOk 1⟩]
      = [0, -899] := by
  decide

/-! ## C7: the age of the descriptor handed to the wrapped driver -/

/-- Forgetting the provenance gives back `Driver.Open`. -/
theorem OpenG_fst (d : Driver) (g : Option Provenance) (name : String) (now : Time)
    (Build : BuildOracle) (inner : InnerOpen) :
    (d.OpenG g name now Build inner).1 = d.Open name now Build inner := by
  by_cases hA : Time.After now d.renewAfter = true
  · rcases build_cases Build d.request with ⟨s, e, hb⟩ | ⟨s, hb⟩ <;>
      simp only [Driver.request] at hb <;>
      simp [Driver.OpenG, Driver.Open, hA, hb]
  · simp [Driver.OpenG, Driver.Open, hA]

theorem OpenG_fresh (d : Driver) (g : Option Provenance) (name : String) (now : Time)
    (Build : BuildOracle) (inner : InnerOpen) (h : Time.After now d.renewAfter = false) :
    (d.OpenG g name now Build inner).2 = g := by
  simp [Driver.OpenG, h]

theorem OpenG_stale_fail (d : Driver) (g : Option Provenance) (name : String) (now : Time)
    (Build : BuildOracle) (inner : InnerOpen) (h : Time.After now d.renewAfter = true)
    (s : String) (e : GoError) (hb : Build d.request = (s, some e)) :
    (d.OpenG g name now Build inner).2 = g := by
  simp only [Driver.request] at hb
  simp [Driver.OpenG, h, hb]

theorem OpenG_stale_ok (d : Driver) (g : Option Provenance) (name : String) (now : Time)
    (Build : BuildOracle) (inner : InnerOpen) (h : Time.After now d.renewAfter = true)
    (s : String) (hb : Build d.request = (s, none)) :
    (d.OpenG g name now Build inner).2 =
      some { builtAt := now, lifetime := d.effectiveLifetime, dsn := s } := by
  simp only [Driver.request] at hb
  simp [Driver.OpenG, h, hb, Driver.effectiveLifetime]

theorem presentations_sound (cs : List Call) :
    ∀ (d : Driver) (g : Option Provenance), Tracks d g →
      ∀ p ∈ presentations d g cs, p.Sound d.effectiveLifetime := by
  induction cs with
  | nil => intro d g _ p hp; simp [presentations] at hp
  | cons c cs ih =>
    intro d g hT p hp
    simp only [presentations, OpenG_fst, List.mem_append, List.mem_map] at hp
    have hcfg := (Open_config d c.name c.now c.Build c.inner).2.1
    by_cases h : d.renewAfter < c.now
    · have hA : Time.After c.now d.renewAfter = true := (Time.After_iff _ _).2 h
      rcases build_cases c.Build d.request with ⟨s, e, hb⟩ | ⟨s, hb⟩
      · rw [OpenG_stale_fail d g c.name c.now c.Build c.inner hA s e hb] at hp
        rw [Open_stale_fail d c.name c.now c.Build c.inner hA s e hb] at hp
        rcases hp with ⟨x, hx, _⟩ | hp
        · simp [innerOpens] at hx
        · exact ih d g hT p hp
      · rw [OpenG_stale_ok d g c.name c.now c.Build c.inner hA s hb] at hp
        rcases hp with ⟨x, hx, rfl⟩ | hp
        · rw [Open_stale_ok d c.name c.now c.Build c.inner hA s hb] at hx
          simp only [innerOpens, List.mem_singleton] at hx
          subst hx
          intro pv hpv
          simp only [Option.some.injEq] at hpv
          subst hpv
          exact ⟨rfl, rfl, by simp⟩
        · rw [← hcfg]
          refine ih _ _ ?_ p hp
          intro pv hpv
          simp only [Option.some.injEq] at hpv
          subst hpv
          rw [Open_stale_ok d c.name c.now c.Build c.inner hA s hb]
          exact ⟨rfl, rfl, rfl⟩
    · have hA : Time.After c.now d.renewAfter = false := (After_false_iff _ _).2 (not_lt.1 h)
      rw [OpenG_fresh d g c.name c.now c.Build c.inner hA] at hp
      rw [Open_fresh d c.name c.now c.Build c.inner hA] at hp
      rcases hp with ⟨x, hx, rfl⟩ | hp
      · simp only [innerOpens, List.mem_singleton] at hx
        subst hx
        intro pv hpv
        obtain ⟨h1, h2, h3⟩ := hT pv hpv
        refine ⟨h2, h3, ?_⟩
        have h4 : c.now ≤ pv.builtAt + pv.lifetime := h1 ▸ not_lt.1 h
        exact le_trans (sub_le_iff_le_add'.2 h4) (le_max_right _ _)
      · exact ih d g hT p hp

/-- C7, as stated, fails for a negative `TokenLifetime`: with `TokenLifetime = -1000` the
`Open` at `now = 101` builds `"dsn1"` and hands it to the wrapped driver in the same call, at
age `0`, which is more than the lifetime `-1000` in force. -/
theorem presented_older_than_negative_lifetime :
    presentations negativeLifetimeDriver none [⟨"db", 101, buildOk "dsn1", innerOk 1⟩]
      = [{ time := 101, dsn := "dsn1",
           source := some { builtAt := 101, lifetime := -1000, dsn := "dsn1" } }] ∧
    negativeLifetimeDriver.effectiveLifetime = -1000 ∧
    ¬ ((101 : Time) - 101 ≤ (-1000 : Duration)) := by
  decide

/-- C7 (amended): along every sequence of `Open` calls with any clock readings, whenever the
wrapped driver is handed, in a call whose clock reading is `t`, a descriptor that was built
in a call whose clock reading was `b`, that descriptor is the string the builder returned
then, the lifetime recorded for it is the driver's effective lifetime `L` (the configured
`TokenLifetime`, or 14 minutes when that is zero), and the age `t - b` is at most `L`
whenever `L` is not negative (and at most `0` when it is). -/
theorem presented_age_le_lifetime (d : Driver) (cs : List Call) (p : Presentation)
    (pv : Provenance) (hp : p ∈ presentations d none cs) (hs : p.source = some pv) :
    p.dsn = pv.dsn ∧ pv.lifetime = d.effectiveLifetime ∧
    (0 ≤ d.effectiveLifetime → p.time - pv.builtAt ≤ d.effectiveLifetime) ∧
    p.time - pv.builtAt ≤ max 0 d.effectiveLifetime := by
  have hT : Tracks d none := by intro pv h; simp at h
  obtain ⟨h1, h2, h3⟩ := presentations_sound cs d none hT p hp pv hs
  rw [h2] at h3
  refine ⟨h1, h2, ?_, h3⟩
  intro hL
  rwa [max_eq_right hL] at h3

/-- Instance of C7 (amended): a build at `101`, then a reuse 13 minutes later: the
descriptor handed over in the second call is 13 minutes old, under the 14 minutes of the
default lifetime. -/
theorem presented_age_le_lifetime_witness :
    ({ time := 101 + 13 * Minute, dsn := "dsn1",
       source := some { builtAt := 101, lifetime := DefaultTokenLifetime, dsn := "dsn1" } }
        : Presentation) ∈
      presentations sampleDriver none
        [⟨"db", 101, buildOk "dsn1", innerOk 1⟩,
         ⟨"db", 101 + 13 * Minute, buildOk "dsn2", innerOk 2⟩] ∧
    (101 + 13 * Minute : Time) - 101 ≤ sampleDriver.effectiveLifetime :=
  ⟨by decide,
    (presented_age_le_lifetime sampleDriver
      [⟨"db", 101, buildOk "dsn1", innerOk 1⟩,
       ⟨"db", 101 + 13 * Minute, buildOk "dsn2", innerOk 2⟩]
      { time := 101 + 13 * Minute, dsn := "dsn1",
        source := some { builtAt := 101, lifetime := DefaultTokenLifetime, dsn := "dsn1" } }
      { builtAt := 101, lifetime := DefaultTokenLifetime, dsn := "dsn1" }
      (by decide) rfl).2.2.1 (by decide)⟩

/-! ## C10: N calls issued together

`d.lock` is taken on entry to `Open` and released on return, so N calls issued concurrently
run as N atomic calls in some serial order; `run d (c :: cs)` is the run in which the call
`c` wins the lock first and the calls `cs` follow in the order they obtain it. -/

theorem builds_append (xs ys : List Event) : builds (xs ++ ys) = builds xs ++ builds ys := by
  induction xs with
  | nil => rfl
  | cons x xs ih => cases x <;> simp [builds, ih]

/-- Calls whose readings are all at or before the watermark: none calls the builder, each
hands the cached descriptor to the wrapped driver and leaves the driver as it is. -/
theorem run_reuse (cs : List Call) :
    ∀ d : Driver, (∀ c ∈ cs, c.now ≤ d.renewAfter) →
      builds (allEvents (run d cs)) = [] ∧
      ∀ r ∈ run d cs, innerOpens r.events = [d.lastDSN] ∧ r.d = d := by
  induction cs with
  | nil => intro d _; simp [run, allEvents, builds]
  | cons c cs ih =>
    intro d h
    have hA : Time.After c.now d.renewAfter = false :=
      (After_false_iff _ _).2 (h c (List.mem_cons_self _ _))
    have hO := Open_fresh d c.name c.now c.Build c.inner hA
    have hrest := ih d fun c2 hc2 => h c2 (List.mem_cons_of_mem _ hc2)
    simp only [run, allEvents, builds_append, List.mem_cons, forall_eq_or_imp]
    rw [hO]
    exact ⟨by simpa [builds] using hrest.1, ⟨by simp [innerOpens], rfl⟩, hrest.2⟩

/-- C10, as stated, fails.  (1) Two calls issued together on a new driver (the cache is
stale for both), the builder failing for the call that wins the lock: that call hands
nothing to the wrapped driver, the other one calls the builder again, two builder calls in
all.  (2) Three calls issued together at the same reading on a new driver configured with
`TokenLifetime = -1000`: each one finds the watermark already behind it and rebuilds, three
builder calls in all, and the three calls hand over three different descriptors. -/
theorem concurrent_Opens_build_again :
    (builds (allEvents (run (New.configure sampleConfig)
        [⟨"a", 5000, buildFail (.errorString "no credentials"), innerOk 1⟩,
         ⟨"b", 5000, buildOk "dsn1", innerOk 2⟩])) =
        [(New.configure sampleConfig).request, (New.configure sampleConfig).request] ∧
      (run (New.configure sampleConfig)
        [⟨"a", 5000, buildFail (.errorString "no credentials"), innerOk 1⟩,
         ⟨"b", 5000, buildOk "dsn1", innerOk 2⟩]).map (fun r => innerOpens r.events) =
        [[], ["dsn1"]]) ∧
    (builds (allEvents (run (New.configure negativeConfig)
        [⟨"a", 5000, buildOk "dsn1", innerOk 1⟩, ⟨"b", 5000, buildOk "dsn2", innerOk 2⟩,
         ⟨"c", 5000, buildOk "dsn3", innerOk 3⟩])) =
        [(New.configure negativeConfig).request, (New.configure negativeConfig).request,
         (New.configure negativeConfig).request] ∧
      (run (New.configure negativeConfig)
        [⟨"a", 5000, buildOk "dsn1", innerOk 1⟩, ⟨"b", 5000, buildOk "dsn2", innerOk 2⟩,
         ⟨"c", 5000, buildOk "dsn3", innerOk 3⟩]).map (fun r => innerOpens r.events) =
        [["dsn1"], ["dsn2"], ["dsn3"]]) := by
  decide

/-- C10 (amended): let N calls to `Open` be issued together and run, under the lock, in the
serial order `c :: cs`.  If the cache is stale for the call `c` that wins the lock, the
builder answers that call with a descriptor `s` and no error, and the clock reading of every
other call is at most `c`'s reading plus the effective lifetime, then over the N calls the
builder is invoked exactly once (by `c`, with the configured request), every one of the N
calls hands exactly `s`, the descriptor of that rebuild, to the wrapped driver, and every
call leaves `s` cached with `renewAfter` at `c`'s reading plus the lifetime. -/
theorem concurrent_Opens_build_once (d : Driver) (c : Call) (cs : List Call) (s : String)
    (hstale : Time.After c.now d.renewAfter = true) (hb : c.Build d.request = (s, none))
    (hwin : ∀ c2 ∈ cs, c2.now ≤ c.now + d.effectiveLifetime) :
    (run d (c :: cs)).length = cs.length + 1 ∧
    builds (allEvents (run d (c :: cs))) = [d.request] ∧
    (builds (allEvents (run d (c :: cs)))).length = 1 ∧
    (∀ r ∈ run d (c :: cs), innerOpens r.events = [s]) ∧
    (∀ r ∈ run d (c :: cs),
      r.d.lastDSN = s ∧ r.d.renewAfter = c.now + d.effectiveLifetime) := by
  have hO := Open_stale_ok d c.name c.now c.Build c.inner hstale s hb
  have hlen : ∀ (ds : List Call) (d0 : Driver), (run d0 ds).length = ds.length := by
    intro ds
    induction ds with
    | nil => intro d0; rfl
    | cons a as ih => intro d0; simp [run, ih]
  have hrest := run_reuse cs (d.Open c.name c.now c.Build c.inner).d (by rw [hO]; exact hwin)
  have hbuilds : builds (allEvents (run d (c :: cs))) = [d.request] := by
    simp only [run, allEvents, builds_append, hrest.1, List.append_nil]
    rw [hO]; simp [builds]
  refine ⟨by simp [hlen], hbuilds, by rw [hbuilds]; rfl, ?_, ?_⟩
  · intro r hr
    simp only [run, List.mem_cons] at hr
    rcases hr with rfl | hr
    · rw [hO]; simp [innerOpens]
    · rw [(hrest.2 r hr).1, hO]
  · intro r hr
    simp only [run, List.mem_cons] at hr
    rcases hr with rfl | hr
    · rw [hO]; exact ⟨rfl, rfl⟩
    · rw [(hrest.2 r hr).2, hO]; exact ⟨rfl, rfl⟩

/-- Instance of C10 (amended): three calls issued together on a new driver with the default
lifetime, at the readings `5000`, `5000` and `5001`: one builder call, and all three hand
`"dsn1"` to the wrapped driver. -/
theorem concurrent_Opens_build_once_witness :
    Time.After 5000 (New.configure sampleConfig).renewAfter = true ∧
    (builds (allEvents (run (New.configure sampleConfig)
      [⟨"a", 5000, buildOk "dsn1", innerOk 1⟩, ⟨"b", 5000, buildOk "dsn2", innerOk 2⟩,
       ⟨"c", 5001, buildOk "dsn3", innerOk 3⟩]))).length = 1 ∧
    ∀ r ∈ run (New.configure sampleConfig)
      [⟨"a", 5000, buildOk "dsn1", innerOk 1⟩, ⟨"b", 5000, buildOk "dsn2", innerOk 2⟩,
       ⟨"c", 5001, buildOk "dsn3", innerOk 3⟩], innerOpens r.events = ["dsn1"] :=
  have h := concurrent_Opens_build_once (New.configure sampleConfig)
    ⟨"a", 5000, buildOk "dsn1", innerOk 1⟩
    [⟨"b", 5000, buildOk "dsn2", innerOk 2⟩, ⟨"c", 5001, buildOk "dsn3", innerOk 3⟩] "dsn1"
    (by decide) rfl (by decide)
  ⟨by decide, h.2.2.1, h.2.2.2.1⟩

end Rdsiamwrap
